import Mathlib

/-!
Verification of the boligpriskalkulator calculation layer
(src/functions/calc_funcs.py) against its specification.

Numeric values are modelled as exact rationals (ℚ).  The one place where
floating-point evaluation can become undefined — the denominator of the
annuity formula vanishing at a zero interest rate, which makes numpy produce
NaN/inf — is modelled explicitly with an Option result (`loanPmtScalar`).
-/

/-- Round-half-to-even rounding to the nearest integer, the
rounding performed by `np.round` with zero decimals on the schedule
columns (calc_funcs.py lines 75-76). -/
def rnd (q : ℚ) : ℤ :=
  if q - ⌊q⌋ < 1/2 then ⌊q⌋
  else if 1/2 < q - ⌊q⌋ then ⌊q⌋ + 1
  else if ⌊q⌋ % 2 = 0 then ⌊q⌋ else ⌊q⌋ + 1

/-- Truthiness of the optional numeric `max_loan_limit`, as Python
evaluates `if max_loan_limit:` (calc_funcs.py line 388): `None` and `0`
are falsy, every other number is truthy. -/
def pyTruthy : Option ℚ → Bool
  | none => false
  | some x => x != 0

/-- Government electricity support (calc_funcs.py lines 94-127,
`calculate_govt_support`).  The literals 0.9125 and 0.9 are the exact
rationals 73/80 and 9/10. -/
def calculate_govt_support (kwh_usage kwh_price_incl_vat_nok govt_support_limit_nok : ℚ) : ℚ :=
  if kwh_usage ≤ 5000 then
    kwh_usage * (kwh_price_incl_vat_nok - govt_support_limit_nok) * (9/10)
  else 0

/-- Total electricity cost (calc_funcs.py lines 130-177,
`calculate_electricity_costs`). -/
def calculate_electricity_costs
    (kwh_usage kwh_price_incl_vat_nok markup_nok fixed_cost_nok govt_support_limit_nok : ℚ) : ℚ :=
  let costs := fixed_cost_nok + kwh_usage * (kwh_price_incl_vat_nok + markup_nok)
  if kwh_price_incl_vat_nok ≤ govt_support_limit_nok then costs
  else costs - calculate_govt_support kwh_usage kwh_price_incl_vat_nok govt_support_limit_nok

/-- C3: the claimed literal regression value 4.725 is wrong for the code:
at kwh_usage = 100, price = 1.5, limit = 0.9125 the function returns
100 * (1.5 - 0.9125) * 0.9 = 52.875 = 423/8, which differs from
4.725 = 189/40. -/
theorem C3_govt_support_literal_counterexample :
    calculate_govt_support 100 (3/2) (73/80) = 423/8 ∧ (423/8 : ℚ) ≠ 189/40 := by
  constructor
  · norm_num [calculate_govt_support]
  · norm_num

/-- C3 (amended): government_support(100, 1.5, 0.9125) returns exactly
52.875, the value of the reference formula 100*(1.5-0.9125)*0.9. -/
theorem C3_govt_support_value :
    calculate_govt_support 100 (3/2) (73/80) = 423/8 := by
  norm_num [calculate_govt_support]

/-- C6: for nonnegative usage, the total electricity cost is
fixed + usage*(price+markup) when price ≤ limit (no subsidy term), is
that amount minus the government support when price > limit, and for
usage above the 5000 kWh cutoff no subsidy is subtracted regardless of
price. -/
theorem C6_electricity_cost_branches (u p m f l : ℚ) (hu : 0 ≤ u) :
    (p ≤ l → calculate_electricity_costs u p m f l = f + u * (p + m)) ∧
    (l < p → calculate_electricity_costs u p m f l
        = f + u * (p + m) - calculate_govt_support u p l) ∧
    (5000 < u → calculate_electricity_costs u p m f l = f + u * (p + m)) := by
  refine ⟨fun h => ?_, fun h => ?_, fun h => ?_⟩
  · simp [calculate_electricity_costs, h]
  · simp [calculate_electricity_costs, not_le.mpr h]
  · by_cases hpl : p ≤ l
    · simp [calculate_electricity_costs, hpl]
    · simp [calculate_electricity_costs, hpl, calculate_govt_support, not_le.mpr h]

/-- Witness for C6 at usage 6000, price 2, markup 0, fixed cost 0,
limit 73/80. -/
theorem C6_electricity_cost_branches_witness :
    (0 : ℚ) ≤ 6000 ∧
    (((2:ℚ) ≤ 73/80 → calculate_electricity_costs 6000 2 0 0 (73/80) = 0 + 6000 * (2 + 0)) ∧
     ((73:ℚ)/80 < 2 → calculate_electricity_costs 6000 2 0 0 (73/80)
        = 0 + 6000 * (2 + 0) - calculate_govt_support 6000 2 (73/80)) ∧
     ((5000:ℚ) < 6000 → calculate_electricity_costs 6000 2 0 0 (73/80) = 0 + 6000 * (2 + 0))) :=
  ⟨by norm_num, C6_electricity_cost_branches 6000 2 0 0 (73/80) (by norm_num)⟩

/-- C7: counterexample — at usage 100, price 0.5 ≤ limit 0.9125 the
function returns the negative amount -37.125, not 0. -/
theorem C7_govt_support_negative_counterexample :
    (1/2 : ℚ) ≤ 73/80 ∧ calculate_govt_support 100 (1/2) (73/80) = -297/8 ∧
    ((-297/8 : ℚ) < 0) := by
  refine ⟨by norm_num, ?_, by norm_num⟩
  norm_num [calculate_govt_support]

/-- C7 (amended): when price ≤ limit the raw function returns 0 only in
the usage > 5000 branch; for usage ≤ 5000 it returns
usage*(price-limit)*0.9, which is ≤ 0 for nonnegative usage (and
strictly negative when usage > 0 and price < limit). -/
theorem C7_govt_support_at_or_below_limit (u p l : ℚ) (hpl : p ≤ l) :
    (5000 < u → calculate_govt_support u p l = 0) ∧
    (u ≤ 5000 → calculate_govt_support u p l = u * (p - l) * (9/10)) ∧
    (0 ≤ u → calculate_govt_support u p l ≤ 0) := by
  refine ⟨fun h => ?_, fun h => ?_, fun h => ?_⟩
  · simp [calculate_govt_support, not_le.mpr h]
  · simp [calculate_govt_support, h]
  · unfold calculate_govt_support
    split_ifs with hle
    · nlinarith
    · exact le_refl 0

/-- Witness for C7 (amended) at usage 100, price 1/2, limit 73/80. -/
theorem C7_govt_support_at_or_below_limit_witness :
    (1/2 : ℚ) ≤ 73/80 ∧
    (((5000:ℚ) < 100 → calculate_govt_support 100 (1/2) (73/80) = 0) ∧
     ((100:ℚ) ≤ 5000 → calculate_govt_support 100 (1/2) (73/80) = 100 * (1/2 - 73/80) * (9/10)) ∧
     ((0:ℚ) ≤ 100 → calculate_govt_support 100 (1/2) (73/80) ≤ 0)) :=
  ⟨by norm_num, C7_govt_support_at_or_below_limit 100 (1/2) (73/80) (by norm_num)⟩

/-- The scalar annuity payment formula of `loan_calc`
(calc_funcs.py lines 265-269) over exact rationals:
monthly_rate * (1 + monthly_rate)^months / ((1 + monthly_rate)^months - 1) * loan. -/
def annuityPmt (loan rate : ℚ) (months : ℕ) : ℚ :=
  let monthly_rate := rate / 12
  let numerator := monthly_rate * (1 + monthly_rate) ^ months
  let denominator := (1 + monthly_rate) ^ months - 1
  numerator / denominator * loan

/-- One scalar entry of the `loan_calc` result.  When the denominator
`(1 + rate/12)^months - 1` vanishes (e.g. rate = 0), floating-point
evaluation of the formula yields NaN (0/0) or ±inf; that undefined
outcome is modelled as `none`. -/
def loanPmtScalar (loan rate : ℚ) (months : ℕ) : Option ℚ :=
  if (1 + rate / 12) ^ months - 1 = 0 then none
  else some (annuityPmt loan rate months)

/-- An argument of `loan_calc`: a scalar or a 1-D array. -/
inductive NpArg where
  | scalar (x : ℚ)
  | vec (xs : List ℚ)
deriving DecidableEq

/-- The shape-polymorphic result of `loan_calc`: a scalar, a 1-D array
or a 2-D matrix, with possibly-undefined (NaN) entries. -/
inductive NpRes where
  | scalar (x : Option ℚ)
  | vec (xs : List (Option ℚ))
  | mat (xss : List (List (Option ℚ)))
deriving DecidableEq

/-- True exactly on 1-D results. -/
def NpRes.isVec : NpRes → Bool
  | .vec _ => true
  | _ => false

/-- True exactly on matrix results. -/
def NpRes.isMat : NpRes → Bool
  | .mat _ => true
  | _ => false

/-- np.atleast_1d: a scalar becomes a one-element array. -/
def atleast_1d : NpArg → List ℚ
  | .scalar x => [x]
  | .vec xs => xs

/-- loan_calc (calc_funcs.py lines 231-279): builds the outer-product
matrix of payments for the column vector of loans against the row
vector of rates, then collapses by size — a single element is returned
as a scalar (`result.item()`), a matrix with a unit dimension is
flattened to 1-D (`result.ravel()`), and anything else is returned as
the full matrix. -/
def loan_calc (loan rate : NpArg) (months : ℕ) : NpRes :=
  let L := atleast_1d loan
  let R := atleast_1d rate
  let result := L.map fun p => R.map fun r => loanPmtScalar p r months
  if L.length * R.length = 1 then .scalar (result.flatten.headD none)
  else if L.length = 1 ∨ R.length = 1 then .vec result.flatten
  else .mat result

/-- C1: at annual_rate = 0 the denominator (1+0/12)^months - 1 of
loan_calc is exactly 0, so the scalar result is the undefined 0/0
(NaN) value, not the linear no-interest payment loan/months that the
specification requires. -/
theorem C1_zero_rate_undefined (loan : ℚ) (months : ℕ) (hl : 0 < loan) (hm : 1 ≤ months) :
    loan_calc (NpArg.scalar loan) (NpArg.scalar 0) months = NpRes.scalar none ∧
    loan_calc (NpArg.scalar loan) (NpArg.scalar 0) months
      ≠ NpRes.scalar (some (loan / months)) := by
  have h : loan_calc (NpArg.scalar loan) (NpArg.scalar 0) months = NpRes.scalar none := by
    simp [loan_calc, atleast_1d, loanPmtScalar]
  exact ⟨h, by rw [h]; simp⟩

/-- Witness for C1 at loan 1200 over 12 months. -/
theorem C1_zero_rate_undefined_witness :
    (0 : ℚ) < 1200 ∧ 1 ≤ 12 ∧
    (loan_calc (NpArg.scalar 1200) (NpArg.scalar 0) 12 = NpRes.scalar none ∧
     loan_calc (NpArg.scalar 1200) (NpArg.scalar 0) 12
       ≠ NpRes.scalar (some (1200 / (12:ℕ)))) :=
  ⟨by norm_num, by norm_num, C1_zero_rate_undefined 1200 12 (by norm_num) (by norm_num)⟩

/-- Flattening a list of singleton rows is the list of their elements. -/
theorem flatten_map_singleton {α β : Type} (l : List α) (g : α → β) :
    (l.map fun a => [g a]).flatten = l.map g := by
  induction l with
  | nil => simp
  | cons a t ih => simp [ih]

/-- C4: counterexample to the claimed broadcasting contract — a
length-1 sequence of principals with a scalar rate yields a scalar,
not a 1-D sequence of length 1, and a length-1 sequence of principals
against a length-2 sequence of rates yields a 1-D sequence, not a
1-by-2 matrix. -/
theorem C4_broadcasting_counterexample :
    (loan_calc (NpArg.vec [100000]) (NpArg.scalar (1/20)) 12).isVec = false ∧
    (loan_calc (NpArg.vec [100000]) (NpArg.vec [1/20, 1/10]) 12).isMat = false := by
  constructor
  · rfl
  · rfl

/-- C4 (amended): scalar-by-scalar gives a scalar; a sequence of
length at least 2 against a scalar gives a 1-D sequence of matching
length; two sequences of length at least 2 give the full outer-product
matrix with shape (length of principals, length of rates).  Sequences
of length 1 collapse: two singletons, or a singleton with a scalar (in
either order), give a scalar, and a singleton against a sequence of
length at least 2 (in either order) gives a 1-D sequence — never a
matrix. -/
theorem C4_broadcasting (p r : ℚ) (ps rs : List ℚ) (n : ℕ)
    (hps : 2 ≤ ps.length) (hrs : 2 ≤ rs.length) :
    loan_calc (NpArg.scalar p) (NpArg.scalar r) n = NpRes.scalar (loanPmtScalar p r n) ∧
    loan_calc (NpArg.vec ps) (NpArg.scalar r) n
      = NpRes.vec (ps.map fun q => loanPmtScalar q r n) ∧
    loan_calc (NpArg.scalar p) (NpArg.vec rs) n
      = NpRes.vec (rs.map fun s => loanPmtScalar p s n) ∧
    loan_calc (NpArg.vec ps) (NpArg.vec rs) n
      = NpRes.mat (ps.map fun q => rs.map fun s => loanPmtScalar q s n) ∧
    loan_calc (NpArg.vec [p]) (NpArg.vec [r]) n = NpRes.scalar (loanPmtScalar p r n) ∧
    loan_calc (NpArg.vec [p]) (NpArg.scalar r) n = NpRes.scalar (loanPmtScalar p r n) ∧
    loan_calc (NpArg.scalar p) (NpArg.vec [r]) n = NpRes.scalar (loanPmtScalar p r n) ∧
    loan_calc (NpArg.vec [p]) (NpArg.vec rs) n
      = NpRes.vec (rs.map fun s => loanPmtScalar p s n) ∧
    loan_calc (NpArg.vec ps) (NpArg.vec [r]) n
      = NpRes.vec (ps.map fun q => loanPmtScalar q r n) := by
  have hps1 : ps.length ≠ 1 := by omega
  have hrs1 : rs.length ≠ 1 := by omega
  refine ⟨by simp [loan_calc, atleast_1d], ?_, ?_, ?_, by simp [loan_calc, atleast_1d],
    by simp [loan_calc, atleast_1d], by simp [loan_calc, atleast_1d], ?_, ?_⟩
  · have hmul : ps.length * 1 ≠ 1 := by omega
    simp [loan_calc, atleast_1d, hmul, hps1, flatten_map_singleton]
  · have hmul : 1 * rs.length ≠ 1 := by omega
    simp [loan_calc, atleast_1d, hmul, hrs1]
  · have hmul : ps.length * rs.length ≠ 1 := by
      intro hc
      nlinarith [hps, hrs]
    simp [loan_calc, atleast_1d, hmul, hps1, hrs1]
  · have hmul : 1 * rs.length ≠ 1 := by omega
    simp [loan_calc, atleast_1d, hmul, hrs1]
  · have hmul : ps.length * 1 ≠ 1 := by omega
    simp [loan_calc, atleast_1d, hmul, hps1, flatten_map_singleton]

/-- Witness for C4 (amended) with principals [1, 2] and rates [3, 4]. -/
theorem C4_broadcasting_witness :
    2 ≤ ([1, 2] : List ℚ).length ∧ 2 ≤ ([3, 4] : List ℚ).length ∧
    (loan_calc (NpArg.scalar 5) (NpArg.scalar 6) 12 = NpRes.scalar (loanPmtScalar 5 6 12) ∧
     loan_calc (NpArg.vec [1, 2]) (NpArg.scalar 6) 12
       = NpRes.vec (([1, 2] : List ℚ).map fun q => loanPmtScalar q 6 12) ∧
     loan_calc (NpArg.scalar 5) (NpArg.vec [3, 4]) 12
       = NpRes.vec (([3, 4] : List ℚ).map fun s => loanPmtScalar 5 s 12) ∧
     loan_calc (NpArg.vec [1, 2]) (NpArg.vec [3, 4]) 12
       = NpRes.mat (([1, 2] : List ℚ).map fun q => ([3, 4] : List ℚ).map fun s => loanPmtScalar q s 12) ∧
     loan_calc (NpArg.vec [5]) (NpArg.vec [6]) 12 = NpRes.scalar (loanPmtScalar 5 6 12) ∧
     loan_calc (NpArg.vec [5]) (NpArg.scalar 6) 12 = NpRes.scalar (loanPmtScalar 5 6 12) ∧
     loan_calc (NpArg.scalar 5) (NpArg.vec [6]) 12 = NpRes.scalar (loanPmtScalar 5 6 12) ∧
     loan_calc (NpArg.vec [5]) (NpArg.vec [3, 4]) 12
       = NpRes.vec (([3, 4] : List ℚ).map fun s => loanPmtScalar 5 s 12) ∧
     loan_calc (NpArg.vec [1, 2]) (NpArg.vec [6]) 12
       = NpRes.vec (([1, 2] : List ℚ).map fun q => loanPmtScalar q 6 12)) :=
  ⟨by decide, by decide, C4_broadcasting 5 6 [1, 2] [3, 4] 12 (by decide) (by decide)⟩

/-- The row of the dataframe assembled by monthly_price_calculator
(calc_funcs.py lines 400-420), with its Norwegian column names. -/
structure Breakdown where
  lan_total : ℚ
  rente : ℚ
  elpris : ℚ
  fk_hus : ℚ
  total_belop : ℚ
  a_belop_hus : ℚ
  b_belop_hus : ℚ
  a_total : ℚ
  b_total : ℚ
  person_a_eierandel : ℚ
  person_b_eierandel : ℚ
deriving DecidableEq

/-- The breakdown built by monthly_price_calculator once past the loan
limit guard (calc_funcs.py lines 397-422). -/
def breakdownOf (houseprice interest_rate fixed_cost_house elprice : ℚ)
    (ammortisation_periods : ℕ)
    (person_a_fixed_costs person_b_fixed_costs transaction_costs ek ownership_fraq : ℚ) :
    Breakdown :=
  let rest_fraq := 1 - ownership_fraq
  let eff_ek := ek - transaction_costs
  let loan := houseprice - eff_ek
  let lan_total := annuityPmt loan interest_rate ammortisation_periods
  let a_belop_hus := lan_total * ownership_fraq + elprice / 2 + fixed_cost_house / 2
  let b_belop_hus := lan_total * rest_fraq + elprice / 2 + fixed_cost_house / 2
  { lan_total := lan_total
    rente := interest_rate
    elpris := elprice
    fk_hus := fixed_cost_house
    total_belop := lan_total + elprice + fixed_cost_house
    a_belop_hus := a_belop_hus
    b_belop_hus := b_belop_hus
    a_total := a_belop_hus + person_a_fixed_costs
    b_total := b_belop_hus + person_b_fixed_costs
    person_a_eierandel := ownership_fraq
    person_b_eierandel := rest_fraq }

/-- monthly_price_calculator (calc_funcs.py lines 323-422).  The code
prints a message and returns None when `max_loan_limit` is truthy and
the computed loan exceeds it; that validation failure is modelled as
`none`. -/
def monthly_price_calculator (houseprice interest_rate fixed_cost_house elprice : ℚ)
    (ammortisation_periods : ℕ)
    (person_a_fixed_costs person_b_fixed_costs transaction_costs ek ownership_fraq : ℚ)
    (max_loan_limit : Option ℚ) : Option Breakdown :=
  let eff_ek := ek - transaction_costs
  let loan := houseprice - eff_ek
  if pyTruthy max_loan_limit ∧ loan > max_loan_limit.getD 0 then none
  else some (breakdownOf houseprice interest_rate fixed_cost_house elprice
    ammortisation_periods person_a_fixed_costs person_b_fixed_costs
    transaction_costs ek ownership_fraq)

/-- One row of the bulk household sweep (calc_funcs.py lines 516-566). -/
structure ScenarioRow where
  house_price : ℚ
  interest_rate : ℚ
  fixed_cost_house : ℚ
  kwh_usage : ℚ
  kwh_price : ℚ
  markup_nok : ℚ
  fixed_cost_electricity : ℚ
  el_cost : ℚ
  ammortisation_periods : ℕ
  person_a_fixed_costs : ℚ
  person_b_fixed_costs : ℚ
  transaction_costs : ℚ
  ek : ℚ
  ownership_fraq : ℚ
  monthly_loan_payment : ℚ
  a_total : ℚ
  b_total : ℚ
deriving DecidableEq

/-- The per-combination body of the bulk sweep loop
(calc_funcs.py lines 516-566).  The electricity cost is computed with
the default support limit 0.9125 = 73/80. -/
def scenarioRow (house_price interest_rate fixed_cost_house kwh_usage kwh_price markup_nok
    fixed_cost_electricity : ℚ) (ammortisation_periods : ℕ)
    (person_a_fixed_costs person_b_fixed_costs transaction_costs ek ownership_fraq : ℚ) :
    ScenarioRow :=
  let eff_ek := ek - transaction_costs
  let loan := house_price - eff_ek
  let monthly_loan_payment := annuityPmt loan interest_rate ammortisation_periods
  let el_cost := calculate_electricity_costs kwh_usage kwh_price markup_nok
    fixed_cost_electricity (73/80)
  let a_share := monthly_loan_payment * ownership_fraq + el_cost / 2 + fixed_cost_house / 2
  let b_share := monthly_loan_payment * (1 - ownership_fraq) + el_cost / 2 + fixed_cost_house / 2
  { house_price := house_price
    interest_rate := interest_rate
    fixed_cost_house := fixed_cost_house
    kwh_usage := kwh_usage
    kwh_price := kwh_price
    markup_nok := markup_nok
    fixed_cost_electricity := fixed_cost_electricity
    el_cost := el_cost
    ammortisation_periods := ammortisation_periods
    person_a_fixed_costs := person_a_fixed_costs
    person_b_fixed_costs := person_b_fixed_costs
    transaction_costs := transaction_costs
    ek := ek
    ownership_fraq := ownership_fraq
    monthly_loan_payment := monthly_loan_payment
    a_total := a_share + person_a_fixed_costs
    b_total := b_share + person_b_fixed_costs }

/-- monthly_price_calculator_scenarios (calc_funcs.py lines 425-570):
itertools.product over the 13 ranges, house price outermost and
ownership fraction innermost, evaluating the loop body for every
combination and collecting every row unconditionally. -/
def monthly_price_calculator_scenarios
    (houseprice_range interest_rate_range fixed_cost_house_range kwh_usage_range
      kwh_price_range markup_nok_range fixed_cost_electricity_range : List ℚ)
    (ammortisation_periods_range : List ℕ)
    (person_a_fixed_costs_range person_b_fixed_costs_range transaction_costs_range
      ek_range ownership_fraq_range : List ℚ) : List ScenarioRow :=
  houseprice_range.bind fun hp =>
  interest_rate_range.bind fun ir =>
  fixed_cost_house_range.bind fun fch =>
  kwh_usage_range.bind fun ku =>
  kwh_price_range.bind fun kp =>
  markup_nok_range.bind fun mu =>
  fixed_cost_electricity_range.bind fun fce =>
  ammortisation_periods_range.bind fun am =>
  person_a_fixed_costs_range.bind fun pa =>
  person_b_fixed_costs_range.bind fun pb =>
  transaction_costs_range.bind fun tc =>
  ek_range.bind fun ekv =>
  ownership_fraq_range.map fun ofq =>
    scenarioRow hp ir fch ku kp mu fce am pa pb tc ekv ofq

/-- A bind whose body always produces k elements has length
(length of the outer list) * k. -/
theorem length_bind_const {α β : Type} (l : List α) (f : α → List β) (k : ℕ)
    (h : ∀ a, (f a).length = k) : (l.bind f).length = l.length * k := by
  induction l with
  | nil => simp
  | cons a t ih =>
    simp only [List.cons_bind, List.length_append, List.length_cons, h, ih]
    ring

/-- C2: counterexample — with max_loan_limit supplied as 0 and a
computed loan of 920000 > 0, the composer still returns a breakdown,
because the guard tests Python truthiness of the limit; the claimed
"failure iff loan exceeds the supplied limit" is false at limit 0. -/
theorem C2_zero_limit_counterexample :
    (3000000 - ((2280000:ℚ) - 200000) > 0) ∧
    (monthly_price_calculator 3000000 (1/20) 3000 1500 360 12349 12000 200000 2280000 (33/100)
      (some 0)).isSome = true :=
  ⟨by norm_num, rfl⟩

/-- C2 (amended): the composer signals the validation failure iff the
supplied max_loan_limit is truthy (nonzero) and the computed loan
house_price - (equity - transaction_costs) exceeds it — supplying 0
disables the check — and the bulk sweep never signals it, producing
exactly one row for every combination of its 13 input ranges. -/
theorem C2_loan_limit_guard (hp ir fk el : ℚ) (n : ℕ) (pa pb tc ek fraq : ℚ) (m : Option ℚ) :
    (monthly_price_calculator hp ir fk el n pa pb tc ek fraq m = none ↔
      pyTruthy m = true ∧ hp - (ek - tc) > m.getD 0) ∧
    ∀ (l1 l2 l3 l4 l5 l6 l7 : List ℚ) (l8 : List ℕ) (l9 l10 l11 l12 l13 : List ℚ),
      (monthly_price_calculator_scenarios l1 l2 l3 l4 l5 l6 l7 l8 l9 l10 l11 l12 l13).length
        = l1.length * (l2.length * (l3.length * (l4.length * (l5.length * (l6.length *
            (l7.length * (l8.length * (l9.length * (l10.length * (l11.length *
            (l12.length * l13.length))))))))))) := by
  constructor
  · simp only [monthly_price_calculator]
    split_ifs with h
    · simpa using h
    · simp [h]
  · intro l1 l2 l3 l4 l5 l6 l7 l8 l9 l10 l11 l12 l13
    unfold monthly_price_calculator_scenarios
    refine length_bind_const _ _ _ (fun a => ?_)
    refine length_bind_const _ _ _ (fun a => ?_)
    refine length_bind_const _ _ _ (fun a => ?_)
    refine length_bind_const _ _ _ (fun a => ?_)
    refine length_bind_const _ _ _ (fun a => ?_)
    refine length_bind_const _ _ _ (fun a => ?_)
    refine length_bind_const _ _ _ (fun a => ?_)
    refine length_bind_const _ _ _ (fun a => ?_)
    refine length_bind_const _ _ _ (fun a => ?_)
    refine length_bind_const _ _ _ (fun a => ?_)
    refine length_bind_const _ _ _ (fun a => ?_)
    refine length_bind_const _ _ _ (fun a => ?_)
    simp

/-- Witness for C2 (amended): a nonzero limit of 100 with a loan of
920000 makes the composer signal the failure. -/
theorem C2_loan_limit_guard_witness :
    monthly_price_calculator 3000000 (1/20) 3000 1500 360 12349 12000 200000 2280000 (33/100)
      (some 100) = none :=
  (C2_loan_limit_guard 3000000 (1/20) 3000 1500 360 12349 12000 200000 2280000 (33/100)
    (some 100)).1.mpr ⟨by decide, by norm_num⟩

/-- C10: supplying max_loan_limit = 0 skips the loan-limit check
entirely (the guard tests truthiness, not presence), so a full
breakdown is returned although the computed loan exceeds the limit 0. -/
theorem C10_zero_limit_skips_check (hp ir fk el : ℚ) (n : ℕ) (pa pb tc ek fraq : ℚ)
    (hloan : hp - (ek - tc) > 0) :
    monthly_price_calculator hp ir fk el n pa pb tc ek fraq (some 0)
      = some (breakdownOf hp ir fk el n pa pb tc ek fraq) := by
  simp [monthly_price_calculator, pyTruthy]

/-- Witness for C10 with a loan of 1420000 against a supplied limit 0. -/
theorem C10_zero_limit_skips_check_witness :
    (3500000 - ((2280000:ℚ) - 200000) > 0) ∧
    monthly_price_calculator 3500000 (1/25) 2500 1200 240 12349 12000 200000 2280000 (40/100)
      (some 0)
      = some (breakdownOf 3500000 (1/25) 2500 1200 240 12349 12000 200000 2280000 (40/100)) :=
  ⟨by norm_num,
   C10_zero_limit_skips_check 3500000 (1/25) 2500 1200 240 12349 12000 200000 2280000 (40/100)
     (by norm_num)⟩

/-- C8: in both the composer and the bulk sweep, the electricity and
fixed-house-cost contributions to both party shares are exactly
half each, whatever the ownership fraction in [0,1]; only the loan
payment is split by the fraction, and the two shares sum to
loan payment + electricity cost + fixed house cost. -/
theorem C8_ownership_split (hp ir fk el ku kp mu fce : ℚ) (n : ℕ)
    (pa pb tc ek fraq : ℚ) (h0 : 0 ≤ fraq) (h1 : fraq ≤ 1) :
    (breakdownOf hp ir fk el n pa pb tc ek fraq).a_belop_hus
      - (breakdownOf hp ir fk el n pa pb tc ek fraq).lan_total * fraq
      = el / 2 + fk / 2 ∧
    (breakdownOf hp ir fk el n pa pb tc ek fraq).b_belop_hus
      - (breakdownOf hp ir fk el n pa pb tc ek fraq).lan_total * (1 - fraq)
      = el / 2 + fk / 2 ∧
    (breakdownOf hp ir fk el n pa pb tc ek fraq).a_belop_hus
        + (breakdownOf hp ir fk el n pa pb tc ek fraq).b_belop_hus
      = (breakdownOf hp ir fk el n pa pb tc ek fraq).lan_total + el + fk ∧
    (scenarioRow hp ir fk ku kp mu fce n pa pb tc ek fraq).a_total - pa
      - (scenarioRow hp ir fk ku kp mu fce n pa pb tc ek fraq).monthly_loan_payment * fraq
      = (scenarioRow hp ir fk ku kp mu fce n pa pb tc ek fraq).el_cost / 2 + fk / 2 ∧
    (scenarioRow hp ir fk ku kp mu fce n pa pb tc ek fraq).b_total - pb
      - (scenarioRow hp ir fk ku kp mu fce n pa pb tc ek fraq).monthly_loan_payment * (1 - fraq)
      = (scenarioRow hp ir fk ku kp mu fce n pa pb tc ek fraq).el_cost / 2 + fk / 2 ∧
    ((scenarioRow hp ir fk ku kp mu fce n pa pb tc ek fraq).a_total - pa)
        + ((scenarioRow hp ir fk ku kp mu fce n pa pb tc ek fraq).b_total - pb)
      = (scenarioRow hp ir fk ku kp mu fce n pa pb tc ek fraq).monthly_loan_payment
          + (scenarioRow hp ir fk ku kp mu fce n pa pb tc ek fraq).el_cost + fk := by
  refine ⟨?_, ?_, ?_, ?_, ?_, ?_⟩ <;> simp [breakdownOf, scenarioRow] <;> ring

/-- Witness for C8 at ownership fraction 33/100. -/
theorem C8_ownership_split_witness :
    (0:ℚ) ≤ 33/100 ∧ (33:ℚ)/100 ≤ 1 ∧
    ((breakdownOf 3000000 (1/20) 3000 1500 360 12349 12000 200000 2280000 (33/100)).a_belop_hus
       - (breakdownOf 3000000 (1/20) 3000 1500 360 12349 12000 200000 2280000 (33/100)).lan_total
           * (33/100)
       = 1500 / 2 + 3000 / 2 ∧
     (breakdownOf 3000000 (1/20) 3000 1500 360 12349 12000 200000 2280000 (33/100)).b_belop_hus
       - (breakdownOf 3000000 (1/20) 3000 1500 360 12349 12000 200000 2280000 (33/100)).lan_total
           * (1 - 33/100)
       = 1500 / 2 + 3000 / 2 ∧
     (breakdownOf 3000000 (1/20) 3000 1500 360 12349 12000 200000 2280000 (33/100)).a_belop_hus
         + (breakdownOf 3000000 (1/20) 3000 1500 360 12349 12000 200000 2280000 (33/100)).b_belop_hus
       = (breakdownOf 3000000 (1/20) 3000 1500 360 12349 12000 200000 2280000 (33/100)).lan_total
           + 1500 + 3000 ∧
     (scenarioRow 3000000 (1/20) 3000 1000 1 0 0 360 12349 12000 200000 2280000 (33/100)).a_total
         - 12349
       - (scenarioRow 3000000 (1/20) 3000 1000 1 0 0 360 12349 12000 200000 2280000
           (33/100)).monthly_loan_payment * (33/100)
       = (scenarioRow 3000000 (1/20) 3000 1000 1 0 0 360 12349 12000 200000 2280000
           (33/100)).el_cost / 2 + 3000 / 2 ∧
     (scenarioRow 3000000 (1/20) 3000 1000 1 0 0 360 12349 12000 200000 2280000 (33/100)).b_total
         - 12000
       - (scenarioRow 3000000 (1/20) 3000 1000 1 0 0 360 12349 12000 200000 2280000
           (33/100)).monthly_loan_payment * (1 - 33/100)
       = (scenarioRow 3000000 (1/20) 3000 1000 1 0 0 360 12349 12000 200000 2280000
           (33/100)).el_cost / 2 + 3000 / 2 ∧
     ((scenarioRow 3000000 (1/20) 3000 1000 1 0 0 360 12349 12000 200000 2280000
         (33/100)).a_total - 12349)
         + ((scenarioRow 3000000 (1/20) 3000 1000 1 0 0 360 12349 12000 200000 2280000
             (33/100)).b_total - 12000)
       = (scenarioRow 3000000 (1/20) 3000 1000 1 0 0 360 12349 12000 200000 2280000
           (33/100)).monthly_loan_payment
           + (scenarioRow 3000000 (1/20) 3000 1000 1 0 0 360 12349 12000 200000 2280000
               (33/100)).el_cost + 3000) :=
  ⟨by norm_num, by norm_num,
   C8_ownership_split 3000000 (1/20) 3000 1500 1000 1 0 0 360 12349 12000 200000 2280000
     (33/100) (by norm_num) (by norm_num)⟩

/-- One row of the electricity scenario sweep
(calc_funcs.py lines 219-225). -/
structure ElecRow where
  kwh_usage : ℚ
  kwh_price : ℚ
  total_cost : ℚ
deriving DecidableEq

/-- scenario_analysis_electricity_costs (calc_funcs.py lines 180-228):
outer loop over the usage range, inner loop over the price range,
appending one row per pair. -/
def scenario_analysis_electricity_costs (kwh_usage_range kwh_price_range : List ℚ)
    (markup_nok fixed_cost_nok govt_support_limit_nok : ℚ) : List ElecRow :=
  kwh_usage_range.bind fun kwh_usage =>
    kwh_price_range.map fun kwh_price =>
      { kwh_usage := kwh_usage
        kwh_price := kwh_price
        total_cost := calculate_electricity_costs kwh_usage kwh_price markup_nok
          fixed_cost_nok govt_support_limit_nok }

/-- Row i*|prices|+j of the sweep is the pair (usages i, prices j). -/
theorem sweep_electricity_getElem (us ps : List ℚ) (mu f l : ℚ) :
    ∀ i j (hi : i < us.length) (hj : j < ps.length),
      (scenario_analysis_electricity_costs us ps mu f l)[i * ps.length + j]?
        = some { kwh_usage := us[i], kwh_price := ps[j],
                 total_cost := calculate_electricity_costs us[i] ps[j] mu f l } := by
  induction us with
  | nil => intro i j hi hj; simp at hi
  | cons u t ih =>
    intro i j hi hj
    have hexp : scenario_analysis_electricity_costs (u :: t) ps mu f l
        = (ps.map fun kwh_price =>
            ({ kwh_usage := u, kwh_price := kwh_price,
               total_cost := calculate_electricity_costs u kwh_price mu f l } : ElecRow))
          ++ scenario_analysis_electricity_costs t ps mu f l := rfl
    rw [hexp]
    match i with
    | 0 =>
      have hlen : 0 * ps.length + j < (ps.map fun kwh_price =>
          ({ kwh_usage := u, kwh_price := kwh_price,
             total_cost := calculate_electricity_costs u kwh_price mu f l } : ElecRow)).length := by
        simpa using hj
      rw [List.getElem?_append, if_pos hlen]
      simp [List.getElem?_eq_getElem (by simpa using hj : j < (List.map _ ps).length)]
    | i' + 1 =>
      have hged : (ps.map fun kwh_price =>
          ({ kwh_usage := u, kwh_price := kwh_price,
             total_cost := calculate_electricity_costs u kwh_price mu f l } : ElecRow)).length
          ≤ (i' + 1) * ps.length + j := by
        simp only [List.length_map, Nat.succ_mul]
        omega
      rw [List.getElem?_append, if_neg (not_lt.mpr hged)]
      have harith : (i' + 1) * ps.length + j - (ps.map fun kwh_price =>
          ({ kwh_usage := u, kwh_price := kwh_price,
             total_cost := calculate_electricity_costs u kwh_price mu f l } : ElecRow)).length
          = i' * ps.length + j := by
        simp only [List.length_map, Nat.succ_mul]
        omega
      rw [harith]
      have ht := ih i' j (by simpa using hi) hj
      simpa using ht

/-- C9: the sweep over usages [a, b] and prices [c, d] yields exactly
the four rows (a,c), (a,d), (b,c), (b,d) in that order, and in general
the output enumerates the full Cartesian product usage-major and
price-minor: it has |usages| * |prices| rows, and row i*|prices|+j is
the pair of usage i with price j. -/
theorem C9_sweep_electricity_order (a b c d mu f l : ℚ) (us ps : List ℚ) :
    scenario_analysis_electricity_costs [a, b] [c, d] mu f l
      = [{ kwh_usage := a, kwh_price := c,
           total_cost := calculate_electricity_costs a c mu f l },
         { kwh_usage := a, kwh_price := d,
           total_cost := calculate_electricity_costs a d mu f l },
         { kwh_usage := b, kwh_price := c,
           total_cost := calculate_electricity_costs b c mu f l },
         { kwh_usage := b, kwh_price := d,
           total_cost := calculate_electricity_costs b d mu f l }] ∧
    (scenario_analysis_electricity_costs us ps mu f l).length = us.length * ps.length ∧
    ∀ i j (hi : i < us.length) (hj : j < ps.length),
      (scenario_analysis_electricity_costs us ps mu f l)[i * ps.length + j]?
        = some { kwh_usage := us[i], kwh_price := ps[j],
                 total_cost := calculate_electricity_costs us[i] ps[j] mu f l } := by
  refine ⟨rfl, ?_, sweep_electricity_getElem us ps mu f l⟩
  unfold scenario_analysis_electricity_costs
  refine length_bind_const _ _ _ (fun x => ?_)
  simp

/-- Witness for C9 on usages [10, 20], prices [1, 2], row (1,0). -/
theorem C9_sweep_electricity_order_witness :
    (1 < ([10, 20] : List ℚ).length) ∧ (0 < ([1, 2] : List ℚ).length) ∧
    (scenario_analysis_electricity_costs [10, 20] [1, 2] 0 0 (73/80))[1 * 2 + 0]?
      = some { kwh_usage := 20, kwh_price := 1,
               total_cost := calculate_electricity_costs 20 1 0 0 (73/80) } :=
  ⟨by decide, by decide,
   (C9_sweep_electricity_order 10 20 1 2 0 0 (73/80) [10, 20] [1, 2]).2.2 1 0
     (by decide) (by decide)⟩

/-- The positive fixed monthly payment, the negated npf.pmt of
calc_funcs.py line 71 at monthly rate r over n periods. -/
def pmtPos (loan r : ℚ) (n : ℕ) : ℚ := loan * r * (1 + r) ^ n / ((1 + r) ^ n - 1)

/-- Outstanding balance after k of the n payments in the npf
amortization model underlying ipmt and ppmt. -/
def balAfter (loan r : ℚ) (n k : ℕ) : ℚ :=
  loan * (1 + r) ^ k - pmtPos loan r n * ((1 + r) ^ k - 1) / r

/-- The negated npf.ipmt(r, k, n, loan) of calc_funcs.py line 71:
interest part of payment k (1-indexed), i.e. the rate times the
balance outstanding at the start of period k. -/
def ipmtPos (loan r : ℚ) (n k : ℕ) : ℚ := r * balAfter loan r n (k - 1)

/-- The negated npf.ppmt(r, k, n, loan) of calc_funcs.py line 72:
principal part of payment k. -/
def ppmtPos (loan r : ℚ) (n k : ℕ) : ℚ := pmtPos loan r n - ipmtPos loan r n k

/-- Exact cumulative interest through period k
(interest_pmt.cumsum() of calc_funcs.py line 75, before rounding). -/
def cumI (loan r : ℚ) (n k : ℕ) : ℚ := ∑ j ∈ Finset.range k, ipmtPos loan r n (j + 1)

/-- Exact cumulative principal through period k
(principal_pmt.cumsum() of calc_funcs.py line 76, before rounding). -/
def cumP (loan r : ℚ) (n k : ℕ) : ℚ := ∑ j ∈ Finset.range k, ppmtPos loan r n (j + 1)

/-- One row of the amortization schedule dataframe
(calc_funcs.py lines 82-90). -/
structure AmortRow where
  month : ℕ
  principal : ℚ
  interest : ℚ
  remaining_balance : ℚ
  total_paid : ℚ
deriving DecidableEq

/-- calculate_amortization_schedule (calc_funcs.py lines 19-91): the
cumulative sums are accumulated exactly, a zero is prepended for the
initial state and every cumulative entry is rounded; Total Paid is the
sum of the two rounded columns, and Remaining Balance is the loan
minus the rounded cumulative principal.  The month-0 entries coincide
with rounding the empty sums (rnd 0 = 0), and the inserted unrounded
month-0 balance equals loan - rnd (cumP .. 0) since cumP .. 0 = 0. -/
def calculate_amortization_schedule (loan_amount annual_interest_rate : ℚ)
    (loan_term_months : ℕ) : List AmortRow :=
  (List.range (loan_term_months + 1)).map fun k =>
    { month := k
      principal := (rnd (cumP loan_amount (annual_interest_rate / 12) loan_term_months k) : ℚ)
      interest := (rnd (cumI loan_amount (annual_interest_rate / 12) loan_term_months k) : ℚ)
      remaining_balance := loan_amount
        - (rnd (cumP loan_amount (annual_interest_rate / 12) loan_term_months k) : ℚ)
      total_paid :=
        (rnd (cumP loan_amount (annual_interest_rate / 12) loan_term_months k) : ℚ)
          + (rnd (cumI loan_amount (annual_interest_rate / 12) loan_term_months k) : ℚ) }

/-- Half-to-even rounding moves a rational by at most one half. -/
theorem abs_sub_rnd (q : ℚ) : |q - (rnd q : ℚ)| ≤ 1/2 := by
  have h1 : (⌊q⌋ : ℚ) ≤ q := Int.floor_le q
  have h2 : q < ⌊q⌋ + 1 := Int.lt_floor_add_one q
  unfold rnd
  split_ifs with ha hb hc
  · rw [abs_le]; constructor <;> push_cast <;> linarith
  · rw [abs_le]; constructor <;> push_cast <;> linarith
  · rw [abs_le]; constructor <;> push_cast <;> linarith
  · rw [abs_le]; constructor <;> push_cast <;> linarith

/-- The principal part of payment k+1 is the drop in outstanding
balance from period k to period k+1. -/
theorem ppmt_telescope (loan r : ℚ) (n k : ℕ) (hr : r ≠ 0) (hd : (1 + r) ^ n - 1 ≠ 0) :
    ppmtPos loan r n (k + 1) = balAfter loan r n k - balAfter loan r n (k + 1) := by
  unfold ppmtPos ipmtPos balAfter pmtPos
  simp only [Nat.add_sub_cancel]
  field_simp
  ring

/-- Over the full term the exact cumulative principal repays the loan. -/
theorem cumP_full (loan r : ℚ) (n : ℕ) (hr : r ≠ 0) (hd : (1 + r) ^ n - 1 ≠ 0) :
    cumP loan r n n = loan := by
  unfold cumP
  rw [Finset.sum_congr rfl
    (fun j _ => ppmt_telescope loan r n j hr hd), Finset.sum_range_sub']
  unfold balAfter pmtPos
  field_simp
  ring

/-- C5: for positive principal and rate and a term of at least one
month, the schedule has term+1 rows; row 0 carries the full principal
as remaining balance and zero cumulative amounts; the final remaining
balance is zero within one rounding unit; and in every row Total Paid
is the sum of its cumulative principal and cumulative interest. -/
theorem C5_amortization_schedule (loan r_a : ℚ) (n : ℕ)
    (hl : 0 < loan) (hr : 0 < r_a) (hn : 1 ≤ n) :
    (calculate_amortization_schedule loan r_a n).length = n + 1 ∧
    (calculate_amortization_schedule loan r_a n)[0]?
      = some { month := 0, principal := 0, interest := 0,
               remaining_balance := loan, total_paid := 0 } ∧
    (∀ row ∈ calculate_amortization_schedule loan r_a n,
      row.total_paid = row.principal + row.interest) ∧
    (calculate_amortization_schedule loan r_a n)[n]?
      = some { month := n,
               principal := (rnd loan : ℚ),
               interest := (rnd (cumI loan (r_a / 12) n n) : ℚ),
               remaining_balance := loan - (rnd loan : ℚ),
               total_paid := (rnd loan : ℚ) + (rnd (cumI loan (r_a / 12) n n) : ℚ) } ∧
    |loan - (rnd loan : ℚ)| ≤ 1 := by
  have hr12 : (0:ℚ) < r_a / 12 := by linarith
  have hrne : r_a / 12 ≠ 0 := ne_of_gt hr12
  have hpow : 1 < (1 + r_a / 12) ^ n := by
    have hb : 1 < 1 + r_a / 12 := by linarith
    calc (1:ℚ) = 1 ^ n := (one_pow n).symm
    _ < (1 + r_a / 12) ^ n := by
      exact pow_lt_pow_left hb (by norm_num) (by omega)
  have hd : (1 + r_a / 12) ^ n - 1 ≠ 0 := by
    intro hc
    nlinarith [hpow]
  have hfull : cumP loan (r_a / 12) n n = loan := cumP_full loan (r_a / 12) n hrne hd
  have hrnd0 : rnd 0 = 0 := by norm_num [rnd]
  refine ⟨by simp [calculate_amortization_schedule], ?_, ?_, ?_, ?_⟩
  · have h0 : 0 < n + 1 := by omega
    simp [calculate_amortization_schedule, List.getElem?_map, List.getElem?_range h0,
      cumP, cumI, hrnd0]
  · intro row hrow
    simp only [calculate_amortization_schedule, List.mem_map] at hrow
    obtain ⟨k, hk, hkrow⟩ := hrow
    rw [← hkrow]
  · have hlt : n < n + 1 := by omega
    simp [calculate_amortization_schedule, List.getElem?_map, List.getElem?_range hlt, hfull]
  · have := abs_sub_rnd loan
    linarith [abs_sub_rnd loan, (abs_nonneg (loan - (rnd loan : ℚ)))]

/-- Witness for C5 with loan 1000 at annual rate 1.2 over 2 months. -/
theorem C5_amortization_schedule_witness :
    (0:ℚ) < 1000 ∧ (0:ℚ) < 12/10 ∧ 1 ≤ 2 ∧
    ((calculate_amortization_schedule 1000 (12/10) 2).length = 2 + 1 ∧
     (calculate_amortization_schedule 1000 (12/10) 2)[0]?
       = some { month := 0, principal := 0, interest := 0,
                remaining_balance := 1000, total_paid := 0 } ∧
     (∀ row ∈ calculate_amortization_schedule 1000 (12/10) 2,
       row.total_paid = row.principal + row.interest) ∧
     (calculate_amortization_schedule 1000 (12/10) 2)[2]?
       = some { month := 2,
                principal := (rnd 1000 : ℚ),
                interest := (rnd (cumI 1000 ((12/10) / 12) 2 2) : ℚ),
                remaining_balance := 1000 - (rnd 1000 : ℚ),
                total_paid := (rnd 1000 : ℚ) + (rnd (cumI 1000 ((12/10) / 12) 2 2) : ℚ) } ∧
     |(1000:ℚ) - (rnd 1000 : ℚ)| ≤ 1) :=
  ⟨by norm_num, by norm_num, by norm_num,
   C5_amortization_schedule 1000 (12/10) 2 (by norm_num) (by norm_num) (by norm_num)⟩
